import Mathlib

/-!
Shallow embedding of the posture-analysis service
(`src/posture-analysis-service/misc/main.py`): the job registry, the
orchestrator runs (`perform_url_analysis`, `perform_file_analysis`), the
result translator (`convert_to_api_format`) and the HTTP-facing handlers.
Python dict-of-models state becomes an association list of records; the
external analyzer and the network download are oracles (parameters); a
raised Python exception becomes an `Except` error value.
-/

namespace PostureService

/-- A Python exception as the orchestration code can observe it:
a `KeyError` carrying the missing key, or a generic `Exception`
carrying its message.  The constructor `malformedAnalyzerOutput`
is modelled from the spec: the spec's §4.4 demands a distinguished
`MalformedAnalyzerOutput` error class, which does not occur anywhere
in the code; it is included in the vocabulary only so that statements
about it can be written. -/
inductive PyErr where
  | keyError (key : String)
  | exc (msg : String)
  | malformedAnalyzerOutput (msg : String)
deriving Repr, DecidableEq

/-- Python `str(e)`: `str(KeyError('k'))` shows the repr of the key,
i.e. the key wrapped in single quotes; a generic exception shows its
message. -/
def errStr : PyErr → String
  | .keyError k => "'" ++ k ++ "'"
  | .exc m => m
  | .malformedAnalyzerOutput m => m

/-- A FastAPI `HTTPException`, carrying status code and detail. -/
structure HTTPErr where
  code : Nat
  detail : String
deriving Repr, DecidableEq

/-- A Python value as it appears in the analyzer's raw nested output:
ints, floats (modelled as rationals), strings, lists and string-keyed
dicts. -/
inductive J where
  | num (n : Int)
  | flt (q : Rat)
  | str (s : String)
  | arr (xs : List J)
  | obj (fields : List (String × J))

/-- Python dict subscription `d[k]`: raises `KeyError(k)` when the key is
absent, `TypeError` when the value is not a dict. -/
def jget (j : J) (k : String) : Except PyErr J :=
  match j with
  | .obj fields =>
      match fields.lookup k with
      | some v => Except.ok v
      | none => Except.error (PyErr.keyError k)
  | _ => Except.error (PyErr.exc "TypeError: object is not subscriptable")

/-- Reading a raw value where pydantic expects an `int`. -/
def asInt : J → Except PyErr Int
  | .num n => Except.ok n
  | _ => Except.error (PyErr.exc "ValidationError: int expected")

/-- Reading a raw value where pydantic expects a `float` (ints coerce). -/
def asRat : J → Except PyErr Rat
  | .flt q => Except.ok q
  | .num n => Except.ok (n : Rat)
  | _ => Except.error (PyErr.exc "ValidationError: float expected")

/-- Reading a raw value where pydantic expects a `str`. -/
def asStr : J → Except PyErr String
  | .str s => Except.ok s
  | _ => Except.error (PyErr.exc "ValidationError: str expected")

/-- Iterating a raw value as a list (`for period_data in ...`). -/
def asArr : J → Except PyErr (List J)
  | .arr xs => Except.ok xs
  | _ => Except.error (PyErr.exc "TypeError: object is not iterable")

/-- Iterating a raw value as a dict (`.items()`). -/
def asItems : J → Except PyErr (List (String × J))
  | .obj fields => Except.ok fields
  | _ => Except.error (PyErr.exc "AttributeError: no attribute items")

/-- Pydantic model `ActionPeriod` (main.py lines 65-69). -/
structure ActionPeriod where
  start_frame : Int
  end_frame : Int
  duration_frames : Int
  duration_seconds : Rat
deriving Repr, DecidableEq

/-- Pydantic model `ActionSummary` (main.py lines 71-73). -/
structure ActionSummary where
  total_duration_seconds : Rat
  occurrence_count : Int
deriving Repr, DecidableEq

/-- Pydantic model `DetectedAction` (main.py lines 75-78). -/
structure DetectedAction where
  action_name : String
  periods : List ActionPeriod
  summary : ActionSummary
deriving Repr, DecidableEq

/-- Pydantic model `PostureEventResponse` (main.py lines 80-84). -/
structure PostureEventResponse where
  project_id : String
  total_bad_postures : Int
  total_duration_seconds : Rat
  detected_actions : List DetectedAction
deriving Repr, DecidableEq

/-- Pydantic model `AnalysisStatus` (main.py lines 86-91): one entry of
the global `analysis_status` dict. -/
structure AnalysisStatus where
  project_id : String
  status : String
  progress : Int
  message : Option String
  result : Option PostureEventResponse
deriving Repr, DecidableEq

/-- The inner loop of `convert_to_api_format` building one `ActionPeriod`
from `period_data` (main.py lines 455-461). -/
def convertPeriod (period_data : J) : Except PyErr ActionPeriod := do
  let sf ← jget period_data "start_frame" >>= asInt
  let ef ← jget period_data "end_frame" >>= asInt
  let df ← jget period_data "duration_frames" >>= asInt
  let ds ← jget period_data "duration_seconds" >>= asRat
  return { start_frame := sf, end_frame := ef,
           duration_frames := df, duration_seconds := ds }

/-- The body of the `for action_key, action_data in ...` loop of
`convert_to_api_format` (main.py lines 452-472): builds one
`DetectedAction` from `action_data`, in the code's access order
(periods first, then the summary fields, then `action_name`). -/
def convertAction (action_data : J) : Except PyErr DetectedAction := do
  let ps ← jget action_data "periods" >>= asArr
  let periods ← ps.mapM convertPeriod
  let sm ← jget action_data "summary"
  let tds ← jget sm "total_duration_seconds" >>= asRat
  let oc ← jget sm "occurrence_count" >>= asInt
  let an ← jget action_data "action_name" >>= asStr
  return { action_name := an, periods := periods,
           summary := { total_duration_seconds := tds, occurrence_count := oc } }

/-- `convert_to_api_format` (main.py lines 444-479): maps the analyzer's
raw nested output to a `PostureEventResponse`, raising a plain `KeyError`
at every missing dict key, in the code's access order. -/
def convert_to_api_format (project_id : String) (analysis_result : J) :
    Except PyErr PostureEventResponse := do
  let tbp ← jget analysis_result "summary" >>= fun s => jget s "total_bad_postures" >>= asInt
  let tds ← jget analysis_result "summary" >>= fun s => jget s "total_duration_seconds" >>= asRat
  let acts ← jget analysis_result "detected_actions" >>= asItems
  let detected_actions ← acts.mapM (fun kv => convertAction kv.2)
  return { project_id := project_id, total_bad_postures := tbp,
           total_duration_seconds := tds, detected_actions := detected_actions }

/-- The global `analysis_status: Dict[str, AnalysisStatus]` (main.py
line 94), modelled as an association list with Python-dict key semantics:
`regLookup` is membership test and subscription, `regInsert` is
`d[k] = v` (replace-or-add), `regDelete` is `del d[k]`.  Only key-value
semantics matter to the claims; the iteration order of `list_analyses`
is not modelled. -/
def Registry := List (String × AnalysisStatus)

instance : DecidableEq Registry := by
  unfold Registry
  infer_instance

instance : Repr Registry := by
  unfold Registry
  infer_instance

/-- `project_id in analysis_status` / `analysis_status[project_id]`. -/
def regLookup (reg : Registry) (pid : String) : Option AnalysisStatus :=
  List.lookup pid reg

/-- `analysis_status[project_id] = value`: replaces an existing binding
or adds one. -/
def regInsert (reg : Registry) (pid : String) (v : AnalysisStatus) : Registry :=
  (pid, v) :: reg.filter (fun kv => kv.1 != pid)

/-- `del analysis_status[project_id]`. -/
def regDelete (reg : Registry) (pid : String) : Registry :=
  reg.filter (fun kv => kv.1 != pid)

/-- A group of consecutive field assignments
`analysis_status[project_id].f = ...` on the same entry: each such
statement subscripts the dict, so when the key is absent the first of
them raises `KeyError(project_id)` and none applies; when it is present
the whole group applies.  Returns the updated registry together with the
newly written record. -/
def regUpdate (reg : Registry) (pid : String) (f : AnalysisStatus → AnalysisStatus) :
    Option (Registry × AnalysisStatus) :=
  match regLookup reg pid with
  | none => none
  | some r => some (regInsert reg pid (f r), f r)

/-- `get_analysis_status` (main.py lines 276-282): 404 when the job is
unknown, otherwise the entire stored `AnalysisStatus` record. -/
def get_analysis_status (reg : Registry) (pid : String) :
    Except HTTPErr AnalysisStatus :=
  match regLookup reg pid with
  | none => Except.error { code := 404, detail := "Analysis not found" }
  | some s => Except.ok s

/-- `get_analysis_result` (main.py lines 284-294): 404 when the job is
unknown, 400 when `status != "completed" or result is None`, otherwise
the attached result. -/
def get_analysis_result (reg : Registry) (pid : String) :
    Except HTTPErr PostureEventResponse :=
  match regLookup reg pid with
  | none => Except.error { code := 404, detail := "Analysis not found" }
  | some s =>
      if s.status != "completed" || s.result.isNone then
        Except.error { code := 400, detail := "Analysis not completed yet" }
      else
        match s.result with
        | some r => Except.ok r
        | none => Except.error { code := 400, detail := "Analysis not completed yet" }

/-- `delete_analysis` (main.py lines 313-321): removes the entry, 404
when absent. -/
def delete_analysis (reg : Registry) (pid : String) : Except HTTPErr Registry :=
  match regLookup reg pid with
  | some _ => Except.ok (regDelete reg pid)
  | none => Except.error { code := 404, detail := "Analysis not found" }

/-- The fresh record both submission handlers store (main.py lines
199-204 and 254-259): `processing`, progress 0, no result. -/
def initialStatus (pid msg : String) : AnalysisStatus :=
  { project_id := pid, status := "processing", progress := 0,
    message := some msg, result := none }

/-- `os.path.isabs` on POSIX: the path starts with "/". -/
def isabs (p : String) : Bool :=
  match p.data with
  | [] => false
  | c :: _ => c == '/'

/-- `os.path.join` for the uses in main.py (second argument relative). -/
def pathJoin (a b : String) : String := a ++ "/" ++ b

/-- `UPLOAD_DIR = os.path.join(os.getcwd(), "uploads")` (main.py line 98). -/
def uploadDir (cwd : String) : String := pathJoin cwd "uploads"

/-- The submission handler `analyze_from_file` (main.py lines 221-274).
`fs` is the oracle for `os.path.exists`: the list of path strings that
exist.  On success returns the registry holding the fresh job entry and
the resolved path; a failure is the `HTTPException` raised before any
registry write. -/
def analyze_from_file (analyzerAvailable : Bool) (fs : List String)
    (cwd : String) (reg : Registry) (pid video_path : String) :
    Except HTTPErr (Registry × String) :=
  if analyzerAvailable = false then
    Except.error { code := 503, detail := "Posture analyzer not available" }
  else
    let resolved? : Except HTTPErr String :=
      if isabs video_path then Except.ok video_path
      else
        match [video_path, pathJoin (uploadDir cwd) video_path,
               pathJoin cwd video_path].find? (fun p => fs.contains p) with
        | some p => Except.ok p
        | none =>
            Except.error ⟨404, "Video file not found: " ++ video_path⟩
    match resolved? with
    | Except.error e => Except.error e
    | Except.ok resolved =>
        if fs.contains resolved = false then
          Except.error ⟨404, "Video file not found: " ++ resolved⟩
        else
          Except.ok (regInsert reg pid
            (initialStatus pid "Starting analysis from local file..."), resolved)

/-- The submission handler `analyze_from_url` (main.py lines 190-219):
503 when the analyzer is unavailable, otherwise stores the fresh entry
(overwriting any previous one for the same id) and schedules the
background run. -/
def analyze_from_url (analyzerAvailable : Bool) (reg : Registry)
    (pid : String) : Except HTTPErr Registry :=
  if analyzerAvailable = false then
    Except.error { code := 503, detail := "Posture analyzer not available" }
  else
    Except.ok (regInsert reg pid
      (initialStatus pid "Starting analysis from URL..."))

/-- Outcome of one background run: the final registry, the surviving
files of the temp directory, the successive records this run wrote for
its job (one per group of field assignments, in write order), and the
exception that escaped the run unhandled, if any. -/
structure RunRes where
  reg : Registry
  files : List String
  trace : List AnalysisStatus
  escaped : Option PyErr
deriving Repr, DecidableEq

/-- The shared `except Exception as e:` handler of both background
functions (main.py lines 363-367 and 404-408): three field assignments
on `analysis_status[project_id]`.  Each subscripts the dict, so when the
entry is gone the first assignment raises `KeyError(project_id)`, which
escapes the run (the handler runs outside any further `try`). -/
def failHandler (reg : Registry) (files : List String)
    (trace : List AnalysisStatus) (pid : String) (e : PyErr) : RunRes :=
  match regUpdate reg pid (fun r =>
      { r with status := "failed", progress := 100,
               message := some ("Analysis failed: " ++ errStr e) }) with
  | some (reg2, w) =>
      { reg := reg2, files := files, trace := trace ++ [w], escaped := none }
  | none =>
      { reg := reg, files := files, trace := trace,
        escaped := some (PyErr.keyError pid) }

/-- `perform_file_analysis` (main.py lines 369-408).  `analyzer` is the
oracle for the external `analyze_video_file` call: the raw output it
returns, or the exception it raises.  Statement by statement: set
progress 30, call the analyzer, set progress 80, call
`convert_to_api_format`, delete the temp file when `is_temp_file` (the
success path only), then set `completed`/100/result as one group; any
exception in this `try` body goes to `failHandler`. -/
def perform_file_analysis (analyzer : String → Except PyErr J)
    (pid video_path : String) (is_temp_file : Bool)
    (reg : Registry) (files : List String) : RunRes :=
  match regUpdate reg pid (fun r =>
      { r with progress := 30, message := some "Analyzing posture..." }) with
  | none => failHandler reg files [] pid (PyErr.keyError pid)
  | some (reg1, w1) =>
      match analyzer video_path with
      | Except.error e => failHandler reg1 files [w1] pid e
      | Except.ok analysis_result =>
          match regUpdate reg1 pid (fun r =>
              { r with progress := 80, message := some "Converting results..." }) with
          | none => failHandler reg1 files [w1] pid (PyErr.keyError pid)
          | some (reg2, w2) =>
              match convert_to_api_format pid analysis_result with
              | Except.error e => failHandler reg2 files [w1, w2] pid e
              | Except.ok posture_response =>
                  let files2 := if is_temp_file then files.erase video_path else files
                  match regUpdate reg2 pid (fun r =>
                      { r with status := "completed", progress := 100,
                               message := some "Analysis completed successfully",
                               result := some posture_response }) with
                  | none => failHandler reg2 files2 [w1, w2] pid (PyErr.keyError pid)
                  | some (reg3, w3) =>
                      { reg := reg3, files := files2,
                        trace := [w1, w2, w3], escaped := none }

/-- `perform_url_analysis` (main.py lines 348-367).  `dl` is the oracle
for `download_video`: the temp path the download produced (the file then
exists in the temp directory, marked transient), or the exception the
download raised.  Statement by statement: set progress 10, download,
then delegate to `perform_file_analysis` with `is_temp_file = True`;
any exception of this `try` body — including one that escaped
`perform_file_analysis`'s own handler — goes to this function's
`failHandler`. -/
def perform_url_analysis (dl : Except PyErr String)
    (analyzer : String → Except PyErr J) (pid : String)
    (reg : Registry) (files : List String) : RunRes :=
  match regUpdate reg pid (fun r =>
      { r with progress := 10, message := some "Downloading video..." }) with
  | none => failHandler reg files [] pid (PyErr.keyError pid)
  | some (reg1, w1) =>
      match dl with
      | Except.error e => failHandler reg1 files [w1] pid e
      | Except.ok temp_path =>
          let files1 := files ++ [temp_path]
          let res := perform_file_analysis analyzer pid temp_path true reg1 files1
          match res.escaped with
          | none => { res with trace := w1 :: res.trace }
          | some e => failHandler res.reg res.files (w1 :: res.trace) pid e

instance {ε α : Type} [DecidableEq ε] [DecidableEq α] : DecidableEq (Except ε α) :=
  fun x y =>
    match x, y with
    | Except.error a, Except.error b =>
        if h : a = b then isTrue (by rw [h]) else isFalse (by intro hc; cases hc; exact h rfl)
    | Except.ok a, Except.ok b =>
        if h : a = b then isTrue (by rw [h]) else isFalse (by intro hc; cases hc; exact h rfl)
    | Except.error _, Except.ok _ => isFalse (by intro hc; cases hc)
    | Except.ok _, Except.error _ => isFalse (by intro hc; cases hc)

/-- Recognizer for the spec's distinguished `MalformedAnalyzerOutput`
error on a translator outcome. -/
def isMalformedErr : Except PyErr PostureEventResponse → Bool
  | Except.error (PyErr.malformedAnalyzerOutput _) => true
  | _ => false

/-- The same recognizer at any result type, for the intermediate reads
of the translator. -/
def errIsMalformed {α : Type} : Except PyErr α → Bool
  | Except.error (PyErr.malformedAnalyzerOutput _) => true
  | _ => false

/-- Modelled from the spec: §3's invariant on the external analyzer's raw
output (the analyzer's code is not part of this repository), for one
action entry: the raw `summary.occurrence_count` equals the length of the
raw `periods` sequence, read exactly the way `convert_to_api_format`
reads them. -/
def rawActionConsistent (action_data : J) : Bool :=
  match jget action_data "periods" >>= asArr,
        jget action_data "summary" >>= fun s => jget s "occurrence_count" >>= asInt with
  | Except.ok ps, Except.ok oc => oc == (ps.length : Int)
  | _, _ => false

/-- Modelled from the spec: §3's analyzer-output invariant over the whole
raw result: every entry of `detected_actions` is consistent. -/
def rawCountsConsistent (raw : J) : Bool :=
  match jget raw "detected_actions" >>= asItems with
  | Except.ok acts => acts.all (fun kv => rawActionConsistent kv.2)
  | Except.error _ => false

/-- Fixture: a raw analyzer period (frames 0-10, 3.0 s). -/
def rawPeriodA : J := J.obj [("start_frame", J.num 0), ("end_frame", J.num 10),
  ("duration_frames", J.num 11), ("duration_seconds", J.flt 3)]

/-- Fixture: a raw analyzer period (frames 20-30, 2.5 s). -/
def rawPeriodB : J := J.obj [("start_frame", J.num 20), ("end_frame", J.num 30),
  ("duration_frames", J.num 11), ("duration_seconds", J.flt (5/2 : Rat))]

/-- Fixture: a well-formed raw analyzer output with one action
("slouching") of two periods, as §6 describes the analyzer's result. -/
def rawGood : J := J.obj [
  ("summary", J.obj [("total_bad_postures", J.num 3),
                     ("total_duration_seconds", J.flt (11/2 : Rat))]),
  ("detected_actions", J.obj [
    ("slouching", J.obj [
      ("action_name", J.str "slouching"),
      ("periods", J.arr [rawPeriodA, rawPeriodB]),
      ("summary", J.obj [("total_duration_seconds", J.flt (11/2 : Rat)),
                         ("occurrence_count", J.num 2)])])])]

/-- Fixture: the `DetectedAction` that `convert_to_api_format` builds
from `rawGood`'s single action. -/
def slouchAction : DetectedAction :=
  { action_name := "slouching",
    periods := [{ start_frame := 0, end_frame := 10, duration_frames := 11,
                  duration_seconds := 3 },
                { start_frame := 20, end_frame := 30, duration_frames := 11,
                  duration_seconds := (5/2 : Rat) }],
    summary := { total_duration_seconds := (11/2 : Rat), occurrence_count := 2 } }

/-- Fixture: the `PostureEventResponse` that `convert_to_api_format`
produces for project "t2" on `rawGood`. -/
def respGood : PostureEventResponse :=
  { project_id := "t2", total_bad_postures := 3,
    total_duration_seconds := (11/2 : Rat), detected_actions := [slouchAction] }

/-!
Fixtures for the double-submission interleaving.  The event loop runs one
atomic block at a time; `perform_url_analysis` suspends only at the
download `await`, `perform_file_analysis` contains no `await` at all.
The schedule modelled here: job "j" is submitted by URL; its run executes
its first block (progress 10) and suspends in the download; the same id
is re-submitted by local path (overwriting the entry); the second run
executes to completion in one block; the first run's download then
returns and its continuation — exactly `perform_file_analysis` on the
transient temp path — executes last.
-/

/-- The registry after the first (URL) submission of "j" and the first
block of its run: the progress-10 write of `perform_url_analysis`. -/
def interReg1 : Registry :=
  match regUpdate (regInsert [] "j" (initialStatus "j" "Starting analysis from URL...")) "j"
      (fun r => { r with progress := 10, message := some "Downloading video..." }) with
  | some rw => rw.1
  | none => []

/-- The registry after the second submission: `analyze_from_file`
overwrites the entry of "j" while the first run sits in its download. -/
def interReg2 : Registry :=
  match analyze_from_file true ["/app/uploads/v2.mp4"] "/app" interReg1 "j" "/app/uploads/v2.mp4" with
  | Except.ok rp => rp.1
  | Except.error _ => []

/-- The second run, executed to completion (it is a single atomic block):
the analyzer succeeds with `rawGood`.  The first run's pending temp file
is on disk throughout. -/
def interRun2 : RunRes :=
  perform_file_analysis (fun _ => Except.ok rawGood) "j" "/app/uploads/v2.mp4" false
    interReg2 ["/app/temp/video_j_1a2b3c4d.mp4"]

/-- The first run's continuation after its download returns: it resumes
with `perform_file_analysis` on its transient temp path; its analyzer
call fails.  This block executes after the second run has ended. -/
def interRun1cont : RunRes :=
  perform_file_analysis (fun _ => Except.error (PyErr.exc "boom1")) "j"
    "/app/temp/video_j_1a2b3c4d.mp4" true interRun2.reg interRun2.files

/-- Fixture: a successful run of a job submitted by local path: the
entry just created by `analyze_from_file`, the analyzer succeeding with
`rawGood`. -/
def fileRunGood : RunRes :=
  perform_file_analysis (fun _ => Except.ok rawGood) "t2" "/app/uploads/v.mp4" false
    (regInsert [] "t2" (initialStatus "t2" "Starting analysis from local file...")) []

/-! Helper lemmas about the registry and the two background runs. -/

theorem regLookup_regInsert_self (reg : Registry) (pid : String) (v : AnalysisStatus) :
    regLookup (regInsert reg pid v) pid = some v := by
  simp [regLookup, regInsert, List.lookup]

theorem regUpdate_of_lookup {reg : Registry} {pid : String} {r : AnalysisStatus}
    (f : AnalysisStatus → AnalysisStatus) (h : regLookup reg pid = some r) :
    regUpdate reg pid f = some (regInsert reg pid (f r), f r) := by
  unfold regUpdate
  rw [h]

theorem regUpdate_of_none {reg : Registry} {pid : String}
    (f : AnalysisStatus → AnalysisStatus) (h : regLookup reg pid = none) :
    regUpdate reg pid f = none := by
  unfold regUpdate
  rw [h]

/-- `perform_file_analysis` on a job whose entry is present, resolved to
its three possible executions: analyzer failure, translation failure, or
success.  In every one the run's own handler absorbs the error. -/
theorem pfa_run_eq (analyzer : String → Except PyErr J) (pid vpath : String)
    (is_temp : Bool) (reg : Registry) (files : List String) (r0 : AnalysisStatus)
    (hreg : regLookup reg pid = some r0) :
    perform_file_analysis analyzer pid vpath is_temp reg files =
      let w1 : AnalysisStatus :=
        { r0 with progress := 30, message := some "Analyzing posture..." }
      let reg1 := regInsert reg pid w1
      match analyzer vpath with
      | Except.error e =>
          let wf : AnalysisStatus :=
            { w1 with status := "failed", progress := 100,
                      message := some ("Analysis failed: " ++ errStr e) }
          { reg := regInsert reg1 pid wf, files := files,
            trace := [w1, wf], escaped := none }
      | Except.ok raw =>
          let w2 : AnalysisStatus :=
            { w1 with progress := 80, message := some "Converting results..." }
          let reg2 := regInsert reg1 pid w2
          match convert_to_api_format pid raw with
          | Except.error e =>
              let wf : AnalysisStatus :=
                { w2 with status := "failed", progress := 100,
                          message := some ("Analysis failed: " ++ errStr e) }
              { reg := regInsert reg2 pid wf, files := files,
                trace := [w1, w2, wf], escaped := none }
          | Except.ok resp =>
              let files2 := if is_temp then files.erase vpath else files
              let w3 : AnalysisStatus :=
                { w2 with status := "completed", progress := 100,
                          message := some "Analysis completed successfully",
                          result := some resp }
              { reg := regInsert reg2 pid w3, files := files2,
                trace := [w1, w2, w3], escaped := none } := by
  cases hA : analyzer vpath with
  | error e =>
      simp [perform_file_analysis, failHandler, regUpdate, hreg,
            regLookup_regInsert_self, hA]
  | ok raw =>
      cases hC : convert_to_api_format pid raw with
      | error e =>
          simp [perform_file_analysis, failHandler, regUpdate, hreg,
                regLookup_regInsert_self, hA, hC]
      | ok resp =>
          simp [perform_file_analysis, failHandler, regUpdate, hreg,
                regLookup_regInsert_self, hA, hC]

/-- A run on a present entry never lets an exception escape. -/
theorem pfa_escaped_none (analyzer : String → Except PyErr J) (pid vpath : String)
    (is_temp : Bool) (reg : Registry) (files : List String) (r0 : AnalysisStatus)
    (hreg : regLookup reg pid = some r0) :
    (perform_file_analysis analyzer pid vpath is_temp reg files).escaped = none := by
  rw [pfa_run_eq analyzer pid vpath is_temp reg files r0 hreg]
  cases hA : analyzer vpath with
  | error e => rfl
  | ok raw =>
      cases hC : convert_to_api_format pid raw with
      | error e => simp [hC]
      | ok resp => simp [hC]

/-- `perform_url_analysis` on a job whose entry is present, resolved to
the download-failure execution and the delegation to
`perform_file_analysis` (whose own handler, on a present entry, absorbs
every error, so the outer handler never runs). -/
theorem pua_run_eq (dl : Except PyErr String) (analyzer : String → Except PyErr J)
    (pid : String) (reg : Registry) (files : List String) (r0 : AnalysisStatus)
    (hreg : regLookup reg pid = some r0) :
    perform_url_analysis dl analyzer pid reg files =
      let w1 : AnalysisStatus :=
        { r0 with progress := 10, message := some "Downloading video..." }
      let reg1 := regInsert reg pid w1
      match dl with
      | Except.error e =>
          let wf : AnalysisStatus :=
            { w1 with status := "failed", progress := 100,
                      message := some ("Analysis failed: " ++ errStr e) }
          { reg := regInsert reg1 pid wf, files := files,
            trace := [w1, wf], escaped := none }
      | Except.ok temp_path =>
          let res := perform_file_analysis analyzer pid temp_path true reg1
            (files ++ [temp_path])
          { res with trace := w1 :: res.trace } := by
  cases hD : dl with
  | error e =>
      simp [perform_url_analysis, failHandler, regUpdate, hreg,
            regLookup_regInsert_self, hD]
  | ok temp_path =>
      have hesc := pfa_escaped_none analyzer pid temp_path true
        (regInsert reg pid { r0 with progress := 10, message := some "Downloading video..." })
        (files ++ [temp_path]) _ (regLookup_regInsert_self _ _ _)
      simp [perform_url_analysis, regUpdate, hreg, hD, hesc]

/-- On a present entry the run always leaves a terminal record for its
job: progress 100 and status completed or failed. -/
theorem pfa_lookup_terminal (analyzer : String → Except PyErr J)
    (pid vpath : String) (is_temp : Bool) (reg : Registry) (files : List String)
    (r0 : AnalysisStatus) (hreg : regLookup reg pid = some r0) :
    (regLookup (perform_file_analysis analyzer pid vpath is_temp reg files).reg pid).map
        (fun r => r.progress) = some 100
    ∧ ((regLookup (perform_file_analysis analyzer pid vpath is_temp reg files).reg pid).map
          (fun r => r.status) = some "completed"
        ∨ (regLookup (perform_file_analysis analyzer pid vpath is_temp reg files).reg pid).map
          (fun r => r.status) = some "failed") := by
  rw [pfa_run_eq analyzer pid vpath is_temp reg files r0 hreg]
  cases hA : analyzer vpath with
  | error e =>
      exact ⟨by simp [regLookup_regInsert_self], Or.inr (by simp [regLookup_regInsert_self])⟩
  | ok raw =>
      cases hC : convert_to_api_format pid raw with
      | error e =>
          exact ⟨by simp [hC, regLookup_regInsert_self],
                 Or.inr (by simp [hC, regLookup_regInsert_self])⟩
      | ok resp =>
          exact ⟨by simp [hC, regLookup_regInsert_self],
                 Or.inl (by simp [hC, regLookup_regInsert_self])⟩

/-- The progress milestones a file-analysis run writes, on a present
entry: 30 then 100 (analyzer failure), or 30, 80, 100 (translation
failure or success).  It never writes 10. -/
theorem pfa_trace_progress (analyzer : String → Except PyErr J)
    (pid vpath : String) (is_temp : Bool) (reg : Registry) (files : List String)
    (r0 : AnalysisStatus) (hreg : regLookup reg pid = some r0) :
    (perform_file_analysis analyzer pid vpath is_temp reg files).trace.map
        (fun r => r.progress) = [30, 100]
    ∨ (perform_file_analysis analyzer pid vpath is_temp reg files).trace.map
        (fun r => r.progress) = [30, 80, 100] := by
  rw [pfa_run_eq analyzer pid vpath is_temp reg files r0 hreg]
  cases hA : analyzer vpath with
  | error e => exact Or.inl (by simp)
  | ok raw =>
      cases hC : convert_to_api_format pid raw with
      | error e => exact Or.inr (by simp [hC])
      | ok resp => exact Or.inr (by simp [hC])

/-- The progress milestones a URL run writes, on a present entry:
10 then 100 (download failure), or 10, 30, 100, or 10, 30, 80, 100. -/
theorem pua_trace_progress (dl : Except PyErr String)
    (analyzer : String → Except PyErr J) (pid : String)
    (reg : Registry) (files : List String) (r0 : AnalysisStatus)
    (hreg : regLookup reg pid = some r0) :
    (perform_url_analysis dl analyzer pid reg files).trace.map
        (fun r => r.progress) = [10, 100]
    ∨ (perform_url_analysis dl analyzer pid reg files).trace.map
        (fun r => r.progress) = [10, 30, 100]
    ∨ (perform_url_analysis dl analyzer pid reg files).trace.map
        (fun r => r.progress) = [10, 30, 80, 100] := by
  rw [pua_run_eq dl analyzer pid reg files r0 hreg]
  cases hD : dl with
  | error e => exact Or.inl (by simp)
  | ok temp_path =>
      have h2 := pfa_trace_progress analyzer pid temp_path true
        (regInsert reg pid { r0 with progress := 10, message := some "Downloading video..." })
        (files ++ [temp_path]) _ (regLookup_regInsert_self _ _ _)
      rcases h2 with h2 | h2
      · exact Or.inr (Or.inl (by simp [h2]))
      · exact Or.inr (Or.inr (by simp [h2]))

/-- A URL run on a present entry also leaves a terminal record:
progress 100, status completed or failed. -/
theorem pua_lookup_terminal (dl : Except PyErr String)
    (analyzer : String → Except PyErr J) (pid : String)
    (reg : Registry) (files : List String) (r0 : AnalysisStatus)
    (hreg : regLookup reg pid = some r0) :
    (regLookup (perform_url_analysis dl analyzer pid reg files).reg pid).map
        (fun r => r.progress) = some 100
    ∧ ((regLookup (perform_url_analysis dl analyzer pid reg files).reg pid).map
          (fun r => r.status) = some "completed"
        ∨ (regLookup (perform_url_analysis dl analyzer pid reg files).reg pid).map
          (fun r => r.status) = some "failed") := by
  rw [pua_run_eq dl analyzer pid reg files r0 hreg]
  cases hD : dl with
  | error e =>
      exact ⟨by simp [regLookup_regInsert_self],
             Or.inr (by simp [regLookup_regInsert_self])⟩
  | ok temp_path =>
      have h := pfa_lookup_terminal analyzer pid temp_path true
        (regInsert reg pid { r0 with progress := 10, message := some "Downloading video..." })
        (files ++ [temp_path]) _ (regLookup_regInsert_self _ _ _)
      simpa using h

/-- The terminal record of a file-analysis run on a present entry, phase
by phase: an analyzer error or a translation error ends the job failed
at progress 100; success ends it completed at progress 100. -/
theorem pfa_phase_results (analyzer : String → Except PyErr J)
    (pid vpath : String) (is_temp : Bool) (reg : Registry) (files : List String)
    (r0 : AnalysisStatus) (hreg : regLookup reg pid = some r0) :
    (∀ e, analyzer vpath = Except.error e →
      (regLookup (perform_file_analysis analyzer pid vpath is_temp reg files).reg pid).map
        (fun r => (r.status, r.progress)) = some ("failed", 100))
    ∧ (∀ raw e, analyzer vpath = Except.ok raw →
        convert_to_api_format pid raw = Except.error e →
      (regLookup (perform_file_analysis analyzer pid vpath is_temp reg files).reg pid).map
        (fun r => (r.status, r.progress)) = some ("failed", 100))
    ∧ (∀ raw resp, analyzer vpath = Except.ok raw →
        convert_to_api_format pid raw = Except.ok resp →
      (regLookup (perform_file_analysis analyzer pid vpath is_temp reg files).reg pid).map
        (fun r => (r.status, r.progress)) = some ("completed", 100)) := by
  rw [pfa_run_eq analyzer pid vpath is_temp reg files r0 hreg]
  refine ⟨fun e hA => ?_, fun raw e hA hC => ?_, fun raw resp hA hC => ?_⟩
  · rw [hA]
    simp [regLookup_regInsert_self]
  · rw [hA]
    simp [hC, regLookup_regInsert_self]
  · rw [hA]
    simp [hC, regLookup_regInsert_self]

/-- On a successful download, the registry a URL run leaves is the one
its delegated file-analysis run leaves. -/
theorem pua_reg_of_download (dl : Except PyErr String)
    (analyzer : String → Except PyErr J) (pid : String)
    (reg : Registry) (files : List String) (r0 : AnalysisStatus)
    (hreg : regLookup reg pid = some r0) (temp_path : String)
    (hD : dl = Except.ok temp_path) :
    (perform_url_analysis dl analyzer pid reg files).reg
      = (perform_file_analysis analyzer pid temp_path true
          (regInsert reg pid { r0 with progress := 10, message := some "Downloading video..." })
          (files ++ [temp_path])).reg := by
  rw [pua_run_eq dl analyzer pid reg files r0 hreg, hD]

/-- The terminal record of a URL run, phase by phase: a download error,
an analyzer error or a translation error each ends the job failed at
progress 100; when all three phases succeed the job ends completed at
progress 100. -/
theorem pua_phase_results (dl : Except PyErr String)
    (analyzer : String → Except PyErr J) (pid : String)
    (reg : Registry) (files : List String) (r0 : AnalysisStatus)
    (hreg : regLookup reg pid = some r0) :
    (∀ e, dl = Except.error e →
      (regLookup (perform_url_analysis dl analyzer pid reg files).reg pid).map
        (fun r => (r.status, r.progress)) = some ("failed", 100))
    ∧ (∀ temp_path e, dl = Except.ok temp_path → analyzer temp_path = Except.error e →
      (regLookup (perform_url_analysis dl analyzer pid reg files).reg pid).map
        (fun r => (r.status, r.progress)) = some ("failed", 100))
    ∧ (∀ temp_path raw e, dl = Except.ok temp_path → analyzer temp_path = Except.ok raw →
        convert_to_api_format pid raw = Except.error e →
      (regLookup (perform_url_analysis dl analyzer pid reg files).reg pid).map
        (fun r => (r.status, r.progress)) = some ("failed", 100))
    ∧ (∀ temp_path raw resp, dl = Except.ok temp_path → analyzer temp_path = Except.ok raw →
        convert_to_api_format pid raw = Except.ok resp →
      (regLookup (perform_url_analysis dl analyzer pid reg files).reg pid).map
        (fun r => (r.status, r.progress)) = some ("completed", 100)) := by
  refine ⟨fun e hD => ?_, fun temp_path e hD hA => ?_,
          fun temp_path raw e hD hA hC => ?_, fun temp_path raw resp hD hA hC => ?_⟩
  · rw [pua_run_eq dl analyzer pid reg files r0 hreg, hD]
    simp [regLookup_regInsert_self]
  · rw [pua_reg_of_download dl analyzer pid reg files r0 hreg temp_path hD]
    exact (pfa_phase_results analyzer pid temp_path true _ _ _
      (regLookup_regInsert_self _ _ _)).1 e hA
  · rw [pua_reg_of_download dl analyzer pid reg files r0 hreg temp_path hD]
    exact (pfa_phase_results analyzer pid temp_path true _ _ _
      (regLookup_regInsert_self _ _ _)).2.1 raw e hA hC
  · rw [pua_reg_of_download dl analyzer pid reg files r0 hreg temp_path hD]
    exact (pfa_phase_results analyzer pid temp_path true _ _ _
      (regLookup_regInsert_self _ _ _)).2.2 raw resp hA hC

/-- Destructuring a successful `Except` bind. -/
theorem bind_ok {γ δ : Type} {x : Except PyErr γ} {f : γ → Except PyErr δ} {d : δ}
    (h : (x >>= f) = Except.ok d) : ∃ c, x = Except.ok c ∧ f c = Except.ok d := by
  cases x with
  | error e => simp [Bind.bind, Except.bind] at h
  | ok c => exact ⟨c, rfl, by simpa [Bind.bind, Except.bind] using h⟩

/-- A successful `mapM` over `Except` preserves length. -/
theorem mapM_ok_length {γ δ : Type} (f : γ → Except PyErr δ) :
    ∀ (l : List γ) (l2 : List δ), l.mapM f = Except.ok l2 → l2.length = l.length := by
  intro l
  induction l with
  | nil =>
      intro l2 h
      rw [List.mapM_nil] at h
      simp only [pure, Except.pure, Except.ok.injEq] at h
      rw [← h]
      rfl
  | cons a as ih =>
      intro l2 h
      rw [List.mapM_cons] at h
      obtain ⟨b, hb, h⟩ := bind_ok h
      obtain ⟨bs, hbs, h⟩ := bind_ok h
      simp only [pure, Except.pure, Except.ok.injEq] at h
      rw [← h]
      simp [ih bs hbs]

/-- Every element of a successful `mapM`'s output comes from applying
the function to some element of the input. -/
theorem mapM_ok_mem {γ δ : Type} (f : γ → Except PyErr δ) :
    ∀ (l : List γ) (l2 : List δ), l.mapM f = Except.ok l2 →
      ∀ b ∈ l2, ∃ a ∈ l, f a = Except.ok b := by
  intro l
  induction l with
  | nil =>
      intro l2 h
      rw [List.mapM_nil] at h
      simp only [pure, Except.pure, Except.ok.injEq] at h
      rw [← h]
      intro b hb
      cases hb
  | cons a as ih =>
      intro l2 h
      rw [List.mapM_cons] at h
      obtain ⟨b0, hb0, h⟩ := bind_ok h
      obtain ⟨bs, hbs, h⟩ := bind_ok h
      simp only [pure, Except.pure, Except.ok.injEq] at h
      rw [← h]
      intro b hb
      rcases List.mem_cons.mp hb with hb | hb
      · exact ⟨a, List.mem_cons_self a as, by rw [hb]; exact hb0⟩
      · obtain ⟨a2, ha2, hfa2⟩ := ih bs hbs b hb
        exact ⟨a2, List.mem_cons_of_mem a ha2, hfa2⟩

/-- For one action, a successful conversion out of a count-consistent
raw entry yields `occurrence_count = periods.length`: the translator
copies the raw count and the raw periods verbatim. -/
theorem convertAction_count (action_data : J) (act : DetectedAction)
    (hc : convertAction action_data = Except.ok act)
    (hcons : rawActionConsistent action_data = true) :
    act.summary.occurrence_count = (act.periods.length : Int) := by
  unfold convertAction at hc
  obtain ⟨ps, h1, hc⟩ := bind_ok hc
  obtain ⟨periods, h2, hc⟩ := bind_ok hc
  obtain ⟨sm, h3, hc⟩ := bind_ok hc
  obtain ⟨tds, h4, hc⟩ := bind_ok hc
  obtain ⟨oc, h5, hc⟩ := bind_ok hc
  obtain ⟨an, h6, hc⟩ := bind_ok hc
  simp only [pure, Except.pure, Except.ok.injEq] at hc
  rw [← hc]
  have hlen := mapM_ok_length convertPeriod ps periods h2
  have hsum : (jget action_data "summary" >>= fun s =>
      jget s "occurrence_count" >>= asInt) = Except.ok oc := by
    rw [h3]
    simpa [Bind.bind, Except.bind] using h5
  unfold rawActionConsistent at hcons
  rw [h1, hsum] at hcons
  simp only [beq_iff_eq] at hcons
  simp [hcons, hlen]

/-- Binding preserves the absence of the distinguished error. -/
theorem errIsMalformed_bind {γ δ : Type} {x : Except PyErr γ} {f : γ → Except PyErr δ}
    (hx : errIsMalformed x = false) (hf : ∀ c, errIsMalformed (f c) = false) :
    errIsMalformed (x >>= f) = false := by
  cases x with
  | error e =>
      cases e with
      | keyError k => rfl
      | exc m => rfl
      | malformedAnalyzerOutput m => simp [errIsMalformed] at hx
  | ok c => simpa [Bind.bind, Except.bind] using hf c

theorem errIsMalformed_pure {γ : Type} (c : γ) :
    errIsMalformed (pure c : Except PyErr γ) = false := rfl

/-- A dict subscription raises only `KeyError` or `TypeError`. -/
theorem errIsMalformed_jget (j : J) (k : String) :
    errIsMalformed (jget j k) = false := by
  cases j with
  | obj fields => cases h : fields.lookup k <;> simp [jget, h, errIsMalformed]
  | num n => rfl
  | flt q => rfl
  | str s => rfl
  | arr xs => rfl

theorem errIsMalformed_asInt (j : J) : errIsMalformed (asInt j) = false := by
  cases j <;> rfl

theorem errIsMalformed_asRat (j : J) : errIsMalformed (asRat j) = false := by
  cases j <;> rfl

theorem errIsMalformed_asStr (j : J) : errIsMalformed (asStr j) = false := by
  cases j <;> rfl

theorem errIsMalformed_asArr (j : J) : errIsMalformed (asArr j) = false := by
  cases j <;> rfl

theorem errIsMalformed_asItems (j : J) : errIsMalformed (asItems j) = false := by
  cases j <;> rfl

theorem errIsMalformed_mapM {γ δ : Type} (f : γ → Except PyErr δ)
    (hf : ∀ a, errIsMalformed (f a) = false) :
    ∀ l : List γ, errIsMalformed (l.mapM f) = false := by
  intro l
  induction l with
  | nil => rw [List.mapM_nil]; rfl
  | cons a as ih =>
      rw [List.mapM_cons]
      exact errIsMalformed_bind (hf a)
        (fun b => errIsMalformed_bind ih (fun bs => errIsMalformed_pure _))

theorem errIsMalformed_convertPeriod (pd : J) :
    errIsMalformed (convertPeriod pd) = false := by
  unfold convertPeriod
  refine errIsMalformed_bind
    (errIsMalformed_bind (errIsMalformed_jget _ _) (fun v => errIsMalformed_asInt v))
    (fun sf => ?_)
  refine errIsMalformed_bind
    (errIsMalformed_bind (errIsMalformed_jget _ _) (fun v => errIsMalformed_asInt v))
    (fun ef => ?_)
  refine errIsMalformed_bind
    (errIsMalformed_bind (errIsMalformed_jget _ _) (fun v => errIsMalformed_asInt v))
    (fun df => ?_)
  refine errIsMalformed_bind
    (errIsMalformed_bind (errIsMalformed_jget _ _) (fun v => errIsMalformed_asRat v))
    (fun ds => ?_)
  exact errIsMalformed_pure _

theorem errIsMalformed_convertAction (action_data : J) :
    errIsMalformed (convertAction action_data) = false := by
  unfold convertAction
  refine errIsMalformed_bind
    (errIsMalformed_bind (errIsMalformed_jget _ _) (fun v => errIsMalformed_asArr v))
    (fun ps => ?_)
  refine errIsMalformed_bind
    (errIsMalformed_mapM convertPeriod (fun pd => errIsMalformed_convertPeriod pd) ps)
    (fun periods => ?_)
  refine errIsMalformed_bind (errIsMalformed_jget _ _) (fun sm => ?_)
  refine errIsMalformed_bind
    (errIsMalformed_bind (errIsMalformed_jget _ _) (fun v => errIsMalformed_asRat v))
    (fun tds => ?_)
  refine errIsMalformed_bind
    (errIsMalformed_bind (errIsMalformed_jget _ _) (fun v => errIsMalformed_asInt v))
    (fun oc => ?_)
  refine errIsMalformed_bind
    (errIsMalformed_bind (errIsMalformed_jget _ _) (fun v => errIsMalformed_asStr v))
    (fun an => ?_)
  exact errIsMalformed_pure _

/-- The translator can only raise `KeyError` or a generic
`TypeError`/`ValidationError` — never the distinguished error. -/
theorem errIsMalformed_convert (pid : String) (raw : J) :
    errIsMalformed (convert_to_api_format pid raw) = false := by
  unfold convert_to_api_format
  refine errIsMalformed_bind
    (errIsMalformed_bind (errIsMalformed_jget _ _)
      (fun s => errIsMalformed_bind (errIsMalformed_jget _ _) (fun v => errIsMalformed_asInt v)))
    (fun tbp => ?_)
  refine errIsMalformed_bind
    (errIsMalformed_bind (errIsMalformed_jget _ _)
      (fun s => errIsMalformed_bind (errIsMalformed_jget _ _) (fun v => errIsMalformed_asRat v)))
    (fun tds => ?_)
  refine errIsMalformed_bind
    (errIsMalformed_bind (errIsMalformed_jget _ _) (fun v => errIsMalformed_asItems v))
    (fun acts => ?_)
  refine errIsMalformed_bind
    (errIsMalformed_mapM _ (fun kv => errIsMalformed_convertAction kv.2) acts)
    (fun detected => ?_)
  exact errIsMalformed_pure _

/-- In every record a file-analysis run writes for a job that started
from a fresh `processing` entry with no result, the result is attached
exactly when the status is "completed". -/
theorem pfa_trace_inv (analyzer : String → Except PyErr J)
    (pid vpath : String) (is_temp : Bool) (reg : Registry) (files : List String)
    (r0 : AnalysisStatus) (hreg : regLookup reg pid = some r0)
    (hr0 : r0.result = none) (hst : r0.status = "processing") :
    ∀ w ∈ (perform_file_analysis analyzer pid vpath is_temp reg files).trace,
      w.result.isSome = (w.status == "completed") := by
  rw [pfa_run_eq analyzer pid vpath is_temp reg files r0 hreg]
  cases hA : analyzer vpath with
  | error e =>
      intro w hw
      simp only [List.mem_cons, List.not_mem_nil, or_false] at hw
      rcases hw with hw | hw <;> rw [hw] <;> simp [hr0, hst]
  | ok raw =>
      cases hC : convert_to_api_format pid raw with
      | error e =>
          intro w hw
          simp only [hC, List.mem_cons, List.not_mem_nil, or_false] at hw
          rcases hw with hw | hw | hw <;> rw [hw] <;> simp [hr0, hst]
      | ok resp =>
          intro w hw
          simp only [hC, List.mem_cons, List.not_mem_nil, or_false] at hw
          rcases hw with hw | hw | hw <;> rw [hw] <;> simp [hr0, hst]

/-- The same result-iff-completed invariant for the records a URL run
writes. -/
theorem pua_trace_inv (dl : Except PyErr String)
    (analyzer : String → Except PyErr J) (pid : String)
    (reg : Registry) (files : List String) (r0 : AnalysisStatus)
    (hreg : regLookup reg pid = some r0)
    (hr0 : r0.result = none) (hst : r0.status = "processing") :
    ∀ w ∈ (perform_url_analysis dl analyzer pid reg files).trace,
      w.result.isSome = (w.status == "completed") := by
  rw [pua_run_eq dl analyzer pid reg files r0 hreg]
  cases hD : dl with
  | error e =>
      intro w hw
      simp only [List.mem_cons, List.not_mem_nil, or_false] at hw
      rcases hw with hw | hw <;> rw [hw] <;> simp [hr0, hst]
  | ok temp_path =>
      intro w hw
      simp only [List.mem_cons] at hw
      rcases hw with hw | hw
      · rw [hw]; simp [hr0, hst]
      · exact pfa_trace_inv analyzer pid temp_path true
          (regInsert reg pid { r0 with progress := 10, message := some "Downloading video..." })
          (files ++ [temp_path]) _ (regLookup_regInsert_self _ _ _)
          (by simp [hr0]) (by simp [hst]) w hw

/-! Claim C1. -/

/-- C1 counterexample: submitting job "t1" with a local path that
resolves under none of the three roots does NOT leave a failed Job entry
observable via get-status — `analyze_from_file` raises the 404 before it
ever writes to the registry, so `get_analysis_status` on the unchanged
registry answers 404 "Analysis not found", never a `failed` job with a
"not found" message. -/
theorem c1_counterexample :
    analyze_from_file true [] "/app" [] "t1" "missing.mp4"
      = Except.error ⟨404, "Video file not found: missing.mp4"⟩
    ∧ get_analysis_status [] "t1" = Except.error ⟨404, "Analysis not found"⟩ := by
  constructor
  · decide
  · decide

/-- C1 amended: a submission by a relative local path that exists under
none of the three resolution roots is rejected synchronously at the
submission boundary with HTTP 404, detail "Video file not found: ..."
(containing "not found"); no Job entry is created, so get-status for that
job id fails with 404 NotFound instead of reporting a failed job. -/
theorem c1_amended (fs : List String) (cwd : String) (reg : Registry)
    (pid video_path : String)
    (hrel : isabs video_path = false)
    (h1 : video_path ∉ fs)
    (h2 : pathJoin (uploadDir cwd) video_path ∉ fs)
    (h3 : pathJoin cwd video_path ∉ fs)
    (hreg : regLookup reg pid = none) :
    analyze_from_file true fs cwd reg pid video_path
      = Except.error ⟨404, "Video file not found: " ++ video_path⟩
    ∧ get_analysis_status reg pid = Except.error ⟨404, "Analysis not found"⟩ := by
  constructor
  · simp [analyze_from_file, hrel, h1, h2, h3, List.find?]
  · simp [get_analysis_status, hreg]

/-- C1 witness: the amended statement at a concrete unresolvable path. -/
theorem c1_amended_witness :
    analyze_from_file true [] "/app" [] "t9" "nothere.mp4"
      = Except.error ⟨404, "Video file not found: nothere.mp4"⟩
    ∧ get_analysis_status [] "t9" = Except.error ⟨404, "Analysis not found"⟩ :=
  c1_amended [] "/app" [] "t9" "nothere.mp4" (by decide) (by decide) (by decide) (by decide) rfl

/-! Claim C3. -/

/-- C3 counterexample: on a raw analyzer output missing the required
"summary" key, `convert_to_api_format` fails with a raw
`KeyError("summary")` — a generic lookup error — not with the
distinguished `MalformedAnalyzerOutput` the claim requires. -/
theorem c3_counterexample :
    convert_to_api_format "p" (J.obj []) = Except.error (PyErr.keyError "summary")
    ∧ isMalformedErr (convert_to_api_format "p" (J.obj [])) = false := by
  exact ⟨rfl, rfl⟩

/-- C3 amended: for every analyzer raw output in which a required key
is absent — "summary", "total_bad_postures", "total_duration_seconds"
or "detected_actions" at the top level; "periods", "summary",
"total_duration_seconds", "occurrence_count" or "action_name" in an
action entry; "start_frame", "end_frame", "duration_frames" or
"duration_seconds" in a period entry — the Result Translator propagates
the generic lookup error `KeyError` naming that key.  It NEVER fails
with a distinguished `MalformedAnalyzerOutput` (no such error class
exists in the code, for any raw output whatsoever), and the generic
run-boundary handler then records the propagated `KeyError` in the
job's failure message. -/
theorem c3_amended :
    (∀ (pid : String) (raw : J),
      errIsMalformed (convert_to_api_format pid raw) = false)
    ∧ (∀ (pid : String) (fs : List (String × J)),
      fs.lookup "summary" = none →
      convert_to_api_format pid (J.obj fs) = Except.error (PyErr.keyError "summary"))
    ∧ (∀ (pid : String) (fs smf : List (String × J)),
      fs.lookup "summary" = some (J.obj smf) →
      smf.lookup "total_bad_postures" = none →
      convert_to_api_format pid (J.obj fs)
        = Except.error (PyErr.keyError "total_bad_postures"))
    ∧ (∀ (pid : String) (fs smf : List (String × J)) (n : Int),
      fs.lookup "summary" = some (J.obj smf) →
      smf.lookup "total_bad_postures" = some (J.num n) →
      smf.lookup "total_duration_seconds" = none →
      convert_to_api_format pid (J.obj fs)
        = Except.error (PyErr.keyError "total_duration_seconds"))
    ∧ (∀ (pid : String) (fs smf : List (String × J)) (n : Int) (q : Rat),
      fs.lookup "summary" = some (J.obj smf) →
      smf.lookup "total_bad_postures" = some (J.num n) →
      smf.lookup "total_duration_seconds" = some (J.flt q) →
      fs.lookup "detected_actions" = none →
      convert_to_api_format pid (J.obj fs)
        = Except.error (PyErr.keyError "detected_actions"))
    ∧ (∀ (pid : String) (fs smf : List (String × J)) (n : Int) (q : Rat)
        (k : String) (ad : J) (rest : List (String × J)) (e : PyErr),
      fs.lookup "summary" = some (J.obj smf) →
      smf.lookup "total_bad_postures" = some (J.num n) →
      smf.lookup "total_duration_seconds" = some (J.flt q) →
      fs.lookup "detected_actions" = some (J.obj ((k, ad) :: rest)) →
      convertAction ad = Except.error e →
      convert_to_api_format pid (J.obj fs) = Except.error e)
    ∧ (∀ (adf : List (String × J)),
      adf.lookup "periods" = none →
      convertAction (J.obj adf) = Except.error (PyErr.keyError "periods"))
    ∧ (∀ (adf pdf : List (String × J)) (restp : List J),
      adf.lookup "periods" = some (J.arr (J.obj pdf :: restp)) →
      pdf.lookup "start_frame" = none →
      convertAction (J.obj adf) = Except.error (PyErr.keyError "start_frame"))
    ∧ (∀ (adf pdf : List (String × J)) (restp : List J) (a : Int),
      adf.lookup "periods" = some (J.arr (J.obj pdf :: restp)) →
      pdf.lookup "start_frame" = some (J.num a) →
      pdf.lookup "end_frame" = none →
      convertAction (J.obj adf) = Except.error (PyErr.keyError "end_frame"))
    ∧ (∀ (adf pdf : List (String × J)) (restp : List J) (a b : Int),
      adf.lookup "periods" = some (J.arr (J.obj pdf :: restp)) →
      pdf.lookup "start_frame" = some (J.num a) →
      pdf.lookup "end_frame" = some (J.num b) →
      pdf.lookup "duration_frames" = none →
      convertAction (J.obj adf) = Except.error (PyErr.keyError "duration_frames"))
    ∧ (∀ (adf pdf : List (String × J)) (restp : List J) (a b c : Int),
      adf.lookup "periods" = some (J.arr (J.obj pdf :: restp)) →
      pdf.lookup "start_frame" = some (J.num a) →
      pdf.lookup "end_frame" = some (J.num b) →
      pdf.lookup "duration_frames" = some (J.num c) →
      pdf.lookup "duration_seconds" = none →
      convertAction (J.obj adf) = Except.error (PyErr.keyError "duration_seconds"))
    ∧ (∀ (adf : List (String × J)),
      adf.lookup "periods" = some (J.arr []) →
      adf.lookup "summary" = none →
      convertAction (J.obj adf) = Except.error (PyErr.keyError "summary"))
    ∧ (∀ (adf asf : List (String × J)),
      adf.lookup "periods" = some (J.arr []) →
      adf.lookup "summary" = some (J.obj asf) →
      asf.lookup "total_duration_seconds" = none →
      convertAction (J.obj adf)
        = Except.error (PyErr.keyError "total_duration_seconds"))
    ∧ (∀ (adf asf : List (String × J)) (q : Rat),
      adf.lookup "periods" = some (J.arr []) →
      adf.lookup "summary" = some (J.obj asf) →
      asf.lookup "total_duration_seconds" = some (J.flt q) →
      asf.lookup "occurrence_count" = none →
      convertAction (J.obj adf) = Except.error (PyErr.keyError "occurrence_count"))
    ∧ (∀ (adf asf : List (String × J)) (q : Rat) (m : Int),
      adf.lookup "periods" = some (J.arr []) →
      adf.lookup "summary" = some (J.obj asf) →
      asf.lookup "total_duration_seconds" = some (J.flt q) →
      asf.lookup "occurrence_count" = some (J.num m) →
      adf.lookup "action_name" = none →
      convertAction (J.obj adf) = Except.error (PyErr.keyError "action_name"))
    ∧ (∀ (analyzer : String → Except PyErr J) (pid vpath : String) (is_temp : Bool)
        (reg : Registry) (files : List String) (r0 : AnalysisStatus)
        (raw : J) (kk : String),
      regLookup reg pid = some r0 →
      analyzer vpath = Except.ok raw →
      convert_to_api_format pid raw = Except.error (PyErr.keyError kk) →
      (regLookup (perform_file_analysis analyzer pid vpath is_temp reg files).reg pid).map
        (fun r => (r.status, r.message))
        = some ("failed", some ("Analysis failed: " ++ errStr (PyErr.keyError kk)))) := by
  refine ⟨fun pid raw => errIsMalformed_convert pid raw,
          fun pid fs h => ?_, fun pid fs smf h1 h2 => ?_,
          fun pid fs smf n h1 h2 h3 => ?_, fun pid fs smf n q h1 h2 h3 h4 => ?_,
          fun pid fs smf n q k ad rest e h1 h2 h3 h4 hca => ?_,
          fun adf hp => ?_, fun adf pdf restp hp h1 => ?_,
          fun adf pdf restp a hp h1 h2 => ?_,
          fun adf pdf restp a b hp h1 h2 h3 => ?_,
          fun adf pdf restp a b c hp h1 h2 h3 h4 => ?_,
          fun adf hp hs => ?_, fun adf asf hp hs h1 => ?_,
          fun adf asf q hp hs h1 h2 => ?_,
          fun adf asf q m hp hs h1 h2 h3 => ?_,
          fun analyzer pid vpath is_temp reg files r0 raw kk hreg hA hC => ?_⟩
  · simp [convert_to_api_format, jget, h, Bind.bind, Except.bind]
  · simp [convert_to_api_format, jget, h1, h2, Bind.bind, Except.bind]
  · simp [convert_to_api_format, jget, asInt, h1, h2, h3, Bind.bind, Except.bind]
  · simp [convert_to_api_format, jget, asInt, asRat, h1, h2, h3, h4,
          Bind.bind, Except.bind]
  · simp [convert_to_api_format, jget, asInt, asRat, asItems, h1, h2, h3, h4,
          List.mapM.loop, hca, Bind.bind, Except.bind, pure, Except.pure]
  · simp [convertAction, jget, hp, Bind.bind, Except.bind]
  · simp [convertAction, convertPeriod, jget, asArr, hp, h1,
          List.mapM.loop, Bind.bind, Except.bind]
  · simp [convertAction, convertPeriod, jget, asArr, asInt, hp, h1, h2,
          List.mapM.loop, Bind.bind, Except.bind]
  · simp [convertAction, convertPeriod, jget, asArr, asInt, hp, h1, h2, h3,
          List.mapM.loop, Bind.bind, Except.bind]
  · simp [convertAction, convertPeriod, jget, asArr, asInt, hp, h1, h2, h3, h4,
          List.mapM.loop, Bind.bind, Except.bind]
  · simp [convertAction, jget, asArr, hp, hs, List.mapM.loop,
          Bind.bind, Except.bind, pure, Except.pure]
  · simp [convertAction, jget, asArr, asRat, hp, hs, h1, List.mapM.loop,
          Bind.bind, Except.bind, pure, Except.pure]
  · simp [convertAction, jget, asArr, asRat, asInt, hp, hs, h1, h2, List.mapM.loop,
          Bind.bind, Except.bind, pure, Except.pure]
  · simp [convertAction, jget, asArr, asRat, asInt, hp, hs, h1, h2, h3, List.mapM.loop,
          Bind.bind, Except.bind, pure, Except.pure]
  · rw [pfa_run_eq analyzer pid vpath is_temp reg files r0 hreg, hA]
    simp [hC, regLookup_regInsert_self]

/-- C3 witness: the amended statement at concrete malformed outputs —
a missing top-level "summary", a missing "start_frame" in a period
entry, and a run whose translator `KeyError` lands in the job's failure
message. -/
theorem c3_amended_witness :
    convert_to_api_format "q" (J.obj [("detected_actions", J.obj [])])
      = Except.error (PyErr.keyError "summary")
    ∧ convertAction (J.obj [("periods", J.arr [J.obj []])])
      = Except.error (PyErr.keyError "start_frame")
    ∧ (regLookup (perform_file_analysis (fun _ => Except.ok (J.obj [])) "t3" "/v.mp4"
          false (regInsert [] "t3" (initialStatus "t3" "m")) []).reg "t3").map
        (fun r => (r.status, r.message))
      = some ("failed", some "Analysis failed: 'summary'") := by
  obtain ⟨h1, h2, h3, h4, h5, h6, h7, h8, h9, h10, h11, h12, h13, h14, h15, h16⟩ :=
    c3_amended
  exact ⟨h2 "q" [("detected_actions", J.obj [])] rfl,
         h8 [("periods", J.arr [J.obj []])] [] [] rfl rfl,
         h16 (fun _ => Except.ok (J.obj [])) "t3" "/v.mp4" false
           (regInsert [] "t3" (initialStatus "t3" "m")) [] (initialStatus "t3" "m")
           (J.obj []) "summary" rfl rfl rfl⟩

/-! Claim C8. -/

/-- C8: `get_analysis_result` fails with 404 exactly on an unknown
job id, fails with 400 whenever the job's status is not "completed"
(and also when a completed job carries no result), and returns the
attached report exactly when the job is completed with a result
present — never partial data. -/
theorem c8_theorem (reg : Registry) (pid : String) :
    (regLookup reg pid = none →
      get_analysis_result reg pid = Except.error ⟨404, "Analysis not found"⟩)
    ∧ (∀ s, regLookup reg pid = some s → s.status ≠ "completed" →
      get_analysis_result reg pid = Except.error ⟨400, "Analysis not completed yet"⟩)
    ∧ (∀ s, regLookup reg pid = some s → s.status = "completed" → s.result = none →
      get_analysis_result reg pid = Except.error ⟨400, "Analysis not completed yet"⟩)
    ∧ (∀ s r, regLookup reg pid = some s → s.status = "completed" → s.result = some r →
      get_analysis_result reg pid = Except.ok r) := by
  refine ⟨fun h => ?_, fun s h hs => ?_, fun s h hs hr => ?_, fun s r h hs hr => ?_⟩
  · simp [get_analysis_result, h]
  · simp [get_analysis_result, h, hs]
  · simp [get_analysis_result, h, hs, hr]
  · simp [get_analysis_result, h, hs, hr]

/-- C8 witness: the theorem applied on a registry holding one completed
job with a result, and on an empty registry. -/
theorem c8_witness :
    get_analysis_result
      [("t2", { project_id := "t2", status := "completed", progress := 100,
                message := some "Analysis completed successfully",
                result := some respGood })] "t2" = Except.ok respGood
    ∧ get_analysis_result [] "zz" = Except.error ⟨404, "Analysis not found"⟩ :=
  ⟨(c8_theorem _ "t2").2.2.2 _ respGood rfl rfl rfl, (c8_theorem [] "zz").1 rfl⟩

/-! Claim C2. -/

/-- C2 counterexample: a job acquired by remote download whose analyzer
call raises.  The run records `failed` in the registry but the transient
temp file is still on disk afterwards — no deletion was attempted. -/
theorem c2_counterexample :
    (regLookup (perform_url_analysis (Except.ok "/app/temp/video_j_ab12cd34.mp4")
        (fun _ => Except.error (PyErr.exc "analyzer crashed")) "j"
        (regInsert [] "j" (initialStatus "j" "Starting analysis from URL...")) []).reg "j").map
      (fun r => r.status) = some "failed"
    ∧ (perform_url_analysis (Except.ok "/app/temp/video_j_ab12cd34.mp4")
        (fun _ => Except.error (PyErr.exc "analyzer crashed")) "j"
        (regInsert [] "j" (initialStatus "j" "Starting analysis from URL...")) []).files
      = ["/app/temp/video_j_ab12cd34.mp4"] := by
  constructor
  · rfl
  · rfl

/-- C2 amended: when the analyzer invocation or the result translation
raises, the run updates the Registry to `failed` but attempts NO deletion
of the transient file (the temp-directory contents are unchanged); the
transient file is deleted only on the path where analysis and translation
both succeed. -/
theorem c2_amended (analyzer : String → Except PyErr J) (pid vpath : String)
    (reg : Registry) (files : List String) (r0 : AnalysisStatus)
    (hreg : regLookup reg pid = some r0) :
    (∀ e, analyzer vpath = Except.error e →
        (perform_file_analysis analyzer pid vpath true reg files).files = files
        ∧ (regLookup (perform_file_analysis analyzer pid vpath true reg files).reg pid).map
            (fun r => r.status) = some "failed")
    ∧ (∀ raw e, analyzer vpath = Except.ok raw →
          convert_to_api_format pid raw = Except.error e →
        (perform_file_analysis analyzer pid vpath true reg files).files = files
        ∧ (regLookup (perform_file_analysis analyzer pid vpath true reg files).reg pid).map
            (fun r => r.status) = some "failed")
    ∧ (∀ raw resp, analyzer vpath = Except.ok raw →
          convert_to_api_format pid raw = Except.ok resp →
        (perform_file_analysis analyzer pid vpath true reg files).files = files.erase vpath
        ∧ (regLookup (perform_file_analysis analyzer pid vpath true reg files).reg pid).map
            (fun r => r.status) = some "completed") := by
  have h := pfa_run_eq analyzer pid vpath true reg files r0 hreg
  refine ⟨fun e hA => ?_, fun raw e hA hC => ?_, fun raw resp hA hC => ?_⟩
  · rw [h, hA]
    exact ⟨by simp, by simp [regLookup_regInsert_self]⟩
  · rw [h, hA]
    exact ⟨by simp [hC], by simp [hC, regLookup_regInsert_self]⟩
  · rw [h, hA]
    exact ⟨by simp [hC], by simp [hC, regLookup_regInsert_self]⟩

/-- C2 witness: the amended statement on a concrete transient-path run
whose analyzer raises. -/
theorem c2_amended_witness :
    (perform_file_analysis (fun _ => Except.error (PyErr.exc "boom")) "w2"
        "/app/temp/w2.mp4" true (regInsert [] "w2" (initialStatus "w2" "m"))
        ["/app/temp/w2.mp4"]).files = ["/app/temp/w2.mp4"]
    ∧ (regLookup (perform_file_analysis (fun _ => Except.error (PyErr.exc "boom")) "w2"
        "/app/temp/w2.mp4" true (regInsert [] "w2" (initialStatus "w2" "m"))
        ["/app/temp/w2.mp4"]).reg "w2").map (fun r => r.status) = some "failed" :=
  (c2_amended (fun _ => Except.error (PyErr.exc "boom")) "w2" "/app/temp/w2.mp4"
      (regInsert [] "w2" (initialStatus "w2" "m")) ["/app/temp/w2.mp4"]
      (initialStatus "w2" "m") rfl).1 (PyErr.exc "boom") rfl

/-! Claim C4. -/

/-- C4 counterexample: a run whose job entry was deleted before the
background task executed (the registry is empty).  The first status
write raises `KeyError`, the handler's own status write raises
`KeyError` again, and the exception escapes the run boundary unhandled —
no `failed` state is recorded. -/
theorem c4_counterexample :
    (perform_file_analysis (fun _ => Except.error (PyErr.exc "boom")) "t1"
        "/v.mp4" false [] []).escaped = some (PyErr.keyError "t1")
    ∧ (perform_file_analysis (fun _ => Except.error (PyErr.exc "boom")) "t1"
        "/v.mp4" false [] []).reg = [] := by
  exact ⟨rfl, rfl⟩

/-- C4 amended: provided the job's Registry entry still exists when the
run executes, every error inside either background run is caught at the
run boundary and the job ends in a terminal state (progress 100,
completed or failed); no exception escapes.  When the entry was deleted
mid-run, the handler's own registry write raises and the exception does
escape. -/
theorem c4_amended (dl : Except PyErr String) (analyzer : String → Except PyErr J)
    (pid vpath : String) (is_temp : Bool) (reg : Registry) (files : List String)
    (r0 : AnalysisStatus) (hreg : regLookup reg pid = some r0) :
    ((perform_file_analysis analyzer pid vpath is_temp reg files).escaped = none
      ∧ (regLookup (perform_file_analysis analyzer pid vpath is_temp reg files).reg pid).map
          (fun r => r.progress) = some 100
      ∧ ((regLookup (perform_file_analysis analyzer pid vpath is_temp reg files).reg pid).map
            (fun r => r.status) = some "completed"
          ∨ (regLookup (perform_file_analysis analyzer pid vpath is_temp reg files).reg pid).map
            (fun r => r.status) = some "failed"))
    ∧ ((perform_url_analysis dl analyzer pid reg files).escaped = none
      ∧ (regLookup (perform_url_analysis dl analyzer pid reg files).reg pid).map
          (fun r => r.progress) = some 100
      ∧ ((regLookup (perform_url_analysis dl analyzer pid reg files).reg pid).map
            (fun r => r.status) = some "completed"
          ∨ (regLookup (perform_url_analysis dl analyzer pid reg files).reg pid).map
            (fun r => r.status) = some "failed")) := by
  have hterm := pfa_lookup_terminal analyzer pid vpath is_temp reg files r0 hreg
  have hesc := pfa_escaped_none analyzer pid vpath is_temp reg files r0 hreg
  refine ⟨⟨hesc, hterm.1, hterm.2⟩, ?_⟩
  rw [pua_run_eq dl analyzer pid reg files r0 hreg]
  cases hD : dl with
  | error e =>
      exact ⟨rfl, by simp [regLookup_regInsert_self],
             Or.inr (by simp [regLookup_regInsert_self])⟩
  | ok temp_path =>
      have hpres : regLookup (regInsert reg pid
          { r0 with progress := 10, message := some "Downloading video..." }) pid
          = some { r0 with progress := 10, message := some "Downloading video..." } :=
        regLookup_regInsert_self _ _ _
      have hterm2 := pfa_lookup_terminal analyzer pid temp_path true
        (regInsert reg pid { r0 with progress := 10, message := some "Downloading video..." })
        (files ++ [temp_path]) _ hpres
      have hesc2 := pfa_escaped_none analyzer pid temp_path true
        (regInsert reg pid { r0 with progress := 10, message := some "Downloading video..." })
        (files ++ [temp_path]) _ hpres
      exact ⟨hesc2, hterm2.1, hterm2.2⟩

/-- C4 witness: the amended statement on a concrete present-entry run. -/
theorem c4_amended_witness :
    (perform_file_analysis (fun _ => Except.error (PyErr.exc "boom")) "w4"
        "/v.mp4" false (regInsert [] "w4" (initialStatus "w4" "m")) []).escaped = none :=
  ((c4_amended (Except.ok "/t.mp4") (fun _ => Except.error (PyErr.exc "boom")) "w4"
      "/v.mp4" false (regInsert [] "w4" (initialStatus "w4" "m")) []
      (initialStatus "w4" "m") rfl).1).1

/-! Claim C5. -/

/-- C5: within a single job run — URL-submitted or path-submitted,
whatever the download, analyzer and translation outcomes — the sequence
of progress values written to the Registry (0 at creation, then the
run's writes) is monotonically non-decreasing and its final write is
100. -/
theorem c5_theorem (dl : Except PyErr String) (analyzer : String → Except PyErr J)
    (pid vpath msgU msgF : String) (is_temp : Bool) (reg : Registry)
    (files : List String) :
    (List.Chain' (fun a b => a ≤ b)
        ((0 : Int) :: (perform_url_analysis dl analyzer pid
            (regInsert reg pid (initialStatus pid msgU)) files).trace.map
            (fun r => r.progress))
      ∧ ((perform_url_analysis dl analyzer pid
            (regInsert reg pid (initialStatus pid msgU)) files).trace.map
            (fun r => r.progress)).getLast? = some 100)
    ∧ (List.Chain' (fun a b => a ≤ b)
        ((0 : Int) :: (perform_file_analysis analyzer pid vpath is_temp
            (regInsert reg pid (initialStatus pid msgF)) files).trace.map
            (fun r => r.progress))
      ∧ ((perform_file_analysis analyzer pid vpath is_temp
            (regInsert reg pid (initialStatus pid msgF)) files).trace.map
            (fun r => r.progress)).getLast? = some 100) := by
  constructor
  · have h := pua_trace_progress dl analyzer pid
      (regInsert reg pid (initialStatus pid msgU)) files _ (regLookup_regInsert_self _ _ _)
    rcases h with h | h | h <;> rw [h] <;>
        exact ⟨by norm_num [List.chain'_cons], rfl⟩
  · have h := pfa_trace_progress analyzer pid vpath is_temp
      (regInsert reg pid (initialStatus pid msgF)) files _ (regLookup_regInsert_self _ _ _)
    rcases h with h | h <;> rw [h] <;>
        exact ⟨by norm_num [List.chain'_cons], rfl⟩

/-! Claim C6. -/

/-- C6 counterexample: a job submitted by local path never receives the
"acquisition started" milestone — its run writes progress 30, 80, 100
and no write of 10 occurs, although the claim demands the progress-10
milestone for every run. -/
theorem c6_counterexample :
    fileRunGood.trace.map (fun r => r.progress) = [30, 80, 100]
    ∧ ¬ ((10 : Int) ∈ fileRunGood.trace.map (fun r => r.progress))
    ∧ (regLookup fileRunGood.reg "t2").map (fun r => r.status) = some "completed" := by
  have h : fileRunGood.trace.map (fun r => r.progress) = [30, 80, 100] := rfl
  exact ⟨h, by rw [h]; decide, rfl⟩

/-- C6 amended: a URL-submitted run writes the progress milestones
10, 100 or 10, 30, 100 or 10, 30, 80, 100; a path-submitted run skips
the acquisition milestones and writes 30, 100 or 30, 80, 100 (never
10); in both flows the run ends with the entry at progress 100 in a
terminal state, completed or failed; and for URL-submitted runs each
phase error — download, analyzer or translation — ends the job failed
at 100, while full success ends it completed at 100. -/
theorem c6_amended (dl : Except PyErr String) (analyzer : String → Except PyErr J)
    (pid vpath msgU msgF : String) (is_temp : Bool) (reg : Registry)
    (files : List String) :
    ((perform_url_analysis dl analyzer pid
        (regInsert reg pid (initialStatus pid msgU)) files).trace.map
        (fun r => r.progress)
      ∈ [[(10 : Int), 100], [10, 30, 100], [10, 30, 80, 100]]
    ∧ (perform_file_analysis analyzer pid vpath is_temp
        (regInsert reg pid (initialStatus pid msgF)) files).trace.map
        (fun r => r.progress)
      ∈ [[(30 : Int), 100], [30, 80, 100]])
    ∧ ((regLookup (perform_file_analysis analyzer pid vpath is_temp
          (regInsert reg pid (initialStatus pid msgF)) files).reg pid).map
          (fun r => r.progress) = some 100
      ∧ ((regLookup (perform_file_analysis analyzer pid vpath is_temp
            (regInsert reg pid (initialStatus pid msgF)) files).reg pid).map
            (fun r => r.status) = some "completed"
        ∨ (regLookup (perform_file_analysis analyzer pid vpath is_temp
            (regInsert reg pid (initialStatus pid msgF)) files).reg pid).map
            (fun r => r.status) = some "failed"))
    ∧ ((regLookup (perform_url_analysis dl analyzer pid
          (regInsert reg pid (initialStatus pid msgU)) files).reg pid).map
          (fun r => r.progress) = some 100
      ∧ ((regLookup (perform_url_analysis dl analyzer pid
            (regInsert reg pid (initialStatus pid msgU)) files).reg pid).map
            (fun r => r.status) = some "completed"
        ∨ (regLookup (perform_url_analysis dl analyzer pid
            (regInsert reg pid (initialStatus pid msgU)) files).reg pid).map
            (fun r => r.status) = some "failed"))
    ∧ ((∀ e, dl = Except.error e →
        (regLookup (perform_url_analysis dl analyzer pid
            (regInsert reg pid (initialStatus pid msgU)) files).reg pid).map
          (fun r => (r.status, r.progress)) = some ("failed", 100))
      ∧ (∀ temp_path e, dl = Except.ok temp_path →
          analyzer temp_path = Except.error e →
        (regLookup (perform_url_analysis dl analyzer pid
            (regInsert reg pid (initialStatus pid msgU)) files).reg pid).map
          (fun r => (r.status, r.progress)) = some ("failed", 100))
      ∧ (∀ temp_path raw e, dl = Except.ok temp_path →
          analyzer temp_path = Except.ok raw →
          convert_to_api_format pid raw = Except.error e →
        (regLookup (perform_url_analysis dl analyzer pid
            (regInsert reg pid (initialStatus pid msgU)) files).reg pid).map
          (fun r => (r.status, r.progress)) = some ("failed", 100))
      ∧ (∀ temp_path raw resp, dl = Except.ok temp_path →
          analyzer temp_path = Except.ok raw →
          convert_to_api_format pid raw = Except.ok resp →
        (regLookup (perform_url_analysis dl analyzer pid
            (regInsert reg pid (initialStatus pid msgU)) files).reg pid).map
          (fun r => (r.status, r.progress)) = some ("completed", 100))) := by
  refine ⟨⟨?_, ?_⟩, ?_, ?_, ?_⟩
  · have h := pua_trace_progress dl analyzer pid
      (regInsert reg pid (initialStatus pid msgU)) files _ (regLookup_regInsert_self _ _ _)
    rcases h with h | h | h <;> rw [h] <;> simp
  · have h := pfa_trace_progress analyzer pid vpath is_temp
      (regInsert reg pid (initialStatus pid msgF)) files _ (regLookup_regInsert_self _ _ _)
    rcases h with h | h <;> rw [h] <;> simp
  · exact pfa_lookup_terminal analyzer pid vpath is_temp
      (regInsert reg pid (initialStatus pid msgF)) files _ (regLookup_regInsert_self _ _ _)
  · exact pua_lookup_terminal dl analyzer pid
      (regInsert reg pid (initialStatus pid msgU)) files _ (regLookup_regInsert_self _ _ _)
  · exact pua_phase_results dl analyzer pid
      (regInsert reg pid (initialStatus pid msgU)) files _ (regLookup_regInsert_self _ _ _)

/-- C6 witness: the amended statement's phase clauses at concrete runs —
a failed download ends the URL job failed at 100, and a fully
successful URL run ends it completed at 100. -/
theorem c6_amended_witness :
    (regLookup (perform_url_analysis
        (Except.error (PyErr.exc "Failed to download video: 404"))
        (fun _ => Except.ok rawGood) "t6"
        (regInsert [] "t6" (initialStatus "t6" "Starting analysis from URL...")) []).reg
        "t6").map (fun r => (r.status, r.progress)) = some ("failed", 100)
    ∧ (regLookup (perform_url_analysis (Except.ok "/app/temp/t2.mp4")
        (fun _ => Except.ok rawGood) "t2"
        (regInsert [] "t2" (initialStatus "t2" "Starting analysis from URL...")) []).reg
        "t2").map (fun r => (r.status, r.progress)) = some ("completed", 100) := by
  constructor
  · exact (c6_amended (Except.error (PyErr.exc "Failed to download video: 404"))
      (fun _ => Except.ok rawGood) "t6" "/v.mp4" "Starting analysis from URL..." "m"
      false [] []).2.2.2.1 (PyErr.exc "Failed to download video: 404") rfl
  · exact (c6_amended (Except.ok "/app/temp/t2.mp4") (fun _ => Except.ok rawGood)
      "t2" "/v.mp4" "Starting analysis from URL..." "m" false [] []).2.2.2.2.2.2
      "/app/temp/t2.mp4" rawGood respGood rfl rfl rfl

/-! Claim C7. -/

/-- C7: for every result the Translator produces out of a raw analyzer
output satisfying the spec's analyzer-side invariant (for each action,
raw `summary.occurrence_count` equals the length of the raw `periods`
sequence — the analyzer itself is outside this repository), every
detected action of the attached report satisfies
`summary.occurrence_count = periods.length`: the Translator copies the
count and the periods verbatim instead of recomputing them, so the
invariant carries over to every completed job. -/
theorem c7_theorem (pid : String) (raw : J) (resp : PostureEventResponse)
    (hconv : convert_to_api_format pid raw = Except.ok resp)
    (hcons : rawCountsConsistent raw = true) :
    ∀ act ∈ resp.detected_actions,
      act.summary.occurrence_count = (act.periods.length : Int) := by
  unfold convert_to_api_format at hconv
  obtain ⟨tbp, h1, hconv⟩ := bind_ok hconv
  obtain ⟨tds, h2, hconv⟩ := bind_ok hconv
  obtain ⟨acts, h3, hconv⟩ := bind_ok hconv
  obtain ⟨detected, h4, hconv⟩ := bind_ok hconv
  simp only [pure, Except.pure, Except.ok.injEq] at hconv
  rw [← hconv]
  intro act hmem
  simp only at hmem
  obtain ⟨kv, hkvmem, hkv⟩ := mapM_ok_mem (fun kv => convertAction kv.2) acts detected h4 act hmem
  unfold rawCountsConsistent at hcons
  rw [h3] at hcons
  have hall : rawActionConsistent kv.2 = true := by
    have := List.all_eq_true.mp hcons kv hkvmem
    simpa using this
  exact convertAction_count kv.2 act hkv hall

/-- C7 witness: the theorem on the concrete fixture `rawGood` (one
action, two periods, raw count 2). -/
theorem c7_witness :
    slouchAction.summary.occurrence_count = (slouchAction.periods.length : Int) :=
  c7_theorem "t2" rawGood respGood rfl rfl slouchAction (by simp [respGood])

/-! Claim C9. -/

/-- C9 counterexample: job "j" is submitted by URL, re-submitted by
path while the first run waits in its download, the second run finishes
(`completed`, progress 100), and then the first run's continuation
executes and fails.  After BOTH runs have ended, get-status shows the
FIRST run's `failed` state and get-result refuses with 400 — not the
second run's final state, contradicting "only the second run's final
state is observable". -/
theorem c9_counterexample :
    (regLookup interRun2.reg "j").map (fun r => (r.status, r.progress))
      = some ("completed", 100)
    ∧ (regLookup interRun1cont.reg "j").map (fun r => (r.status, r.message))
      = some ("failed", some "Analysis failed: boom1")
    ∧ get_analysis_result interRun1cont.reg "j"
      = Except.error ⟨400, "Analysis not completed yet"⟩ := by
  refine ⟨rfl, rfl, rfl⟩

/-- C9 amended: re-submitting a job id overwrites the Registry entry
with the fresh initial record (no merge) — but both runs keep writing
through the same key, so after both runs end the observable state is
that of whichever run wrote last.  In the schedule where the first
run's continuation executes after the second run has ended, the final
state is the first run's, whatever the second run produced. -/
theorem c9_amended (reg : Registry) (pid vpath2 temp1 : String)
    (analyzer2 : String → Except PyErr J) (files : List String) :
    (∀ s0 : AnalysisStatus,
      analyze_from_url true (regInsert reg pid s0) pid
        = Except.ok (regInsert (regInsert reg pid s0) pid
            (initialStatus pid "Starting analysis from URL..."))
      ∧ regLookup (regInsert (regInsert reg pid s0) pid
            (initialStatus pid "Starting analysis from URL...")) pid
        = some (initialStatus pid "Starting analysis from URL..."))
    ∧ (∀ msgF : String,
        (regLookup (perform_file_analysis (fun _ => Except.error (PyErr.exc "boom1"))
            pid temp1 true
            (perform_file_analysis analyzer2 pid vpath2 false
              (regInsert reg pid (initialStatus pid msgF)) files).reg
            (perform_file_analysis analyzer2 pid vpath2 false
              (regInsert reg pid (initialStatus pid msgF)) files).files).reg pid).map
          (fun r => (r.status, r.message))
        = some ("failed", some "Analysis failed: boom1")) := by
  constructor
  · intro s0
    exact ⟨rfl, regLookup_regInsert_self _ _ _⟩
  · intro msgF
    have hterm := pfa_lookup_terminal analyzer2 pid vpath2 false
      (regInsert reg pid (initialStatus pid msgF)) files _ (regLookup_regInsert_self _ _ _)
    cases hx : regLookup (perform_file_analysis analyzer2 pid vpath2 false
        (regInsert reg pid (initialStatus pid msgF)) files).reg pid with
    | none =>
        rw [hx] at hterm
        simp at hterm
    | some w =>
        rw [pfa_run_eq (fun _ => Except.error (PyErr.exc "boom1")) pid temp1 true
          _ _ w hx]
        simp [regLookup_regInsert_self, errStr]

/-! Claim C10. -/

/-- C10: `get_analysis_status` on a known job id returns the entire
stored record — the result field included, not only the status/progress
/message summary — and in every record either background run writes for
a freshly submitted job, the result is attached exactly when the status
is "completed"; hence the full report is retrievable through get-status
as soon as, and only when, the job completes. -/
theorem c10_theorem :
    (∀ (reg : Registry) (pid : String) (s : AnalysisStatus),
        regLookup reg pid = some s → get_analysis_status reg pid = Except.ok s)
    ∧ (∀ (dl : Except PyErr String) (analyzer : String → Except PyErr J)
         (pid msg : String) (reg : Registry) (files : List String),
        ∀ w ∈ (initialStatus pid msg) ::
            (perform_url_analysis dl analyzer pid
              (regInsert reg pid (initialStatus pid msg)) files).trace,
          w.result.isSome = (w.status == "completed"))
    ∧ (∀ (analyzer : String → Except PyErr J) (pid vpath msg : String)
         (is_temp : Bool) (reg : Registry) (files : List String),
        ∀ w ∈ (initialStatus pid msg) ::
            (perform_file_analysis analyzer pid vpath is_temp
              (regInsert reg pid (initialStatus pid msg)) files).trace,
          w.result.isSome = (w.status == "completed")) := by
  refine ⟨fun reg pid s h => ?_, fun dl analyzer pid msg reg files w hw => ?_,
          fun analyzer pid vpath msg is_temp reg files w hw => ?_⟩
  · simp [get_analysis_status, h]
  · rcases List.mem_cons.mp hw with hw | hw
    · rw [hw]; simp [initialStatus]
    · exact pua_trace_inv dl analyzer pid _ files _
        (regLookup_regInsert_self _ _ _) rfl rfl w hw
  · rcases List.mem_cons.mp hw with hw | hw
    · rw [hw]; simp [initialStatus]
    · exact pfa_trace_inv analyzer pid vpath is_temp _ files _
        (regLookup_regInsert_self _ _ _) rfl rfl w hw

/-- C10 witness: the theorem's get-status part at a concrete registry
holding a completed job with its report attached. -/
theorem c10_witness :
    get_analysis_status
      [("t2", { project_id := "t2", status := "completed", progress := 100,
                message := some "Analysis completed successfully",
                result := some respGood })] "t2"
      = Except.ok { project_id := "t2", status := "completed", progress := 100,
                    message := some "Analysis completed successfully",
                    result := some respGood } :=
  c10_theorem.1 _ "t2" _ rfl

end PostureService
